import Mathlib

/-!
# Verification of the Luzia SDK core engines

Shallow embedding of the Luzia TypeScript SDK's request pipeline
(`src/retry.ts`, `src/errors.ts`, `src/client.ts`) and streaming session
(`src/websocket.ts`), together with theorems settling the specification
claims about them.

Conventions of the embedding:
* TypeScript numbers are modelled as `ℚ` (all arithmetic in the embedded
  code is exact on rationals); `JsNum` adds an explicit NaN where
  `parseInt` can produce one.
* `undefined` / `null` fields are modelled as `Option`.
* JavaScript `Set<string>` is modelled as a duplicate-free `List String`
  in insertion order (`setAdd` / `setDelete`).
* `Math.random()` results are passed in as explicit `ℚ` parameters
  (one per random draw).
* Thrown values of type `unknown` are modelled by `JsValue`: either a
  `LuziaError` or some other opaque value.
-/

/-- Error codes of the SDK (`ErrorCode` in `src/errors.ts`). -/
inductive ErrorCode where
  | auth
  | not_found
  | validation
  | rate_limit
  | timeout
  | network
  | server
  | unknown
deriving DecidableEq, Repr

/-- The fields of `LuziaError` (`src/errors.ts`) that the retry engine and
the retryability classifier inspect.  `status` is the optional HTTP
status, `code` defaults to `unknown` in the constructor, `retryAfter` is
the optional rate-limit hint in seconds. -/
structure LuziaError where
  status : Option ℤ := none
  code : ErrorCode := .unknown
  retryAfter : Option ℚ := none
deriving DecidableEq, Repr

/-- A thrown JavaScript value (`unknown`): either a `LuziaError` instance
or any other value (whose content is irrelevant to the code under
study). -/
inductive JsValue where
  | luzia (e : LuziaError)
  | other
deriving DecidableEq, Repr

/-- Whether an error code is one of the four retryable codes
(`rate_limit`, `network`, `timeout`, `server`), mirroring the first
check of `isRetryableError` in `src/errors.ts`. -/
def codeRetryable (c : ErrorCode) : Bool :=
  c = ErrorCode.rate_limit ∨ c = ErrorCode.network ∨
    c = ErrorCode.timeout ∨ c = ErrorCode.server

/-- `isRetryableError` from `src/errors.ts`: non-`LuziaError` values are
never retryable; otherwise retryable codes win, and for the remaining
codes the HTTP status (if defined) decides: `408`, `429` or `≥ 500`. -/
def isRetryableError : JsValue → Bool
  | .other => false
  | .luzia e =>
    if codeRetryable e.code then true
    else
      match e.status with
      | some s => s = 408 ∨ s = 429 ∨ s ≥ 500
      | none => false

/-- `RetryOptions` from `src/types/options.ts`: every field optional. -/
structure RetryOptions where
  maxRetries : Option ℕ := none
  initialDelayMs : Option ℚ := none
  maxDelayMs : Option ℚ := none
  backoffMultiplier : Option ℚ := none
  jitter : Option Bool := none
deriving DecidableEq, Repr

/-- `Required<RetryOptions>`: all defaults applied. -/
structure ResolvedRetryOptions where
  maxRetries : ℕ
  initialDelayMs : ℚ
  maxDelayMs : ℚ
  backoffMultiplier : ℚ
  jitter : Bool
deriving DecidableEq, Repr

/-- `DEFAULT_RETRY_OPTIONS` from `src/retry.ts`. -/
def DEFAULT_RETRY_OPTIONS : ResolvedRetryOptions :=
  { maxRetries := 3
    initialDelayMs := 1000
    maxDelayMs := 30000
    backoffMultiplier := 2
    jitter := true }

/-- `RATE_LIMIT_BUFFER_MS` from `src/retry.ts`. -/
def RATE_LIMIT_BUFFER_MS : ℚ := 100

/-- `resolveRetryOptions` from `src/retry.ts`: spread of the caller's
options over the defaults (absent fields fall back to the default). -/
def resolveRetryOptions (o : Option RetryOptions) : ResolvedRetryOptions :=
  match o with
  | none => DEFAULT_RETRY_OPTIONS
  | some r =>
    { maxRetries := r.maxRetries.getD DEFAULT_RETRY_OPTIONS.maxRetries
      initialDelayMs := r.initialDelayMs.getD DEFAULT_RETRY_OPTIONS.initialDelayMs
      maxDelayMs := r.maxDelayMs.getD DEFAULT_RETRY_OPTIONS.maxDelayMs
      backoffMultiplier := r.backoffMultiplier.getD DEFAULT_RETRY_OPTIONS.backoffMultiplier
      jitter := r.jitter.getD DEFAULT_RETRY_OPTIONS.jitter }

/-- The guard `error?.code === 'rate_limit' && error.retryAfter !== undefined`
of `calculateRetryDelay`, returning the hint when it applies. -/
def rateLimitHint (err : Option LuziaError) : Option ℚ :=
  match err with
  | some e => if e.code = ErrorCode.rate_limit then e.retryAfter else none
  | none => none

/-- `calculateRetryDelay` from `src/retry.ts`.  `rand` is the value of
`Math.random()` drawn when jitter is enabled (the jitter factor is
`0.5 + rand`). -/
def calculateRetryDelay (attempt : ℕ) (options : ResolvedRetryOptions)
    (err : Option LuziaError) (rand : ℚ) : ℚ :=
  match rateLimitHint err with
  | some ra => min (ra * 1000 + RATE_LIMIT_BUFFER_MS) options.maxDelayMs
  | none =>
    let delay := options.initialDelayMs * options.backoffMultiplier ^ attempt
    let delay := if options.jitter then delay * (1/2 + rand) else delay
    min delay options.maxDelayMs

/-- `error instanceof LuziaError ? error : undefined` from `withRetry`. -/
def toLuziaError : JsValue → Option LuziaError
  | .luzia e => some e
  | .other => none

/-- Observable outcome of a `withRetry` run: the final result (success or
the propagated thrown value), the number of times the operation was
invoked, and the sequence of delays slept between attempts. -/
structure RetryRun (T : Type) where
  result : Except JsValue T
  calls : ℕ
  sleeps : List ℚ

/-- The loop of `withRetry` from `src/retry.ts`.  `op k` is the outcome of
the `k`-th invocation of the operation (0-indexed), `rands k` the random
draw used for the delay after attempt `k`.  `fuel` is the number of
retries still allowed (`maxRetries - attempt`), so the loop's exhaustion
test `attempt >= maxRetries` is the test `fuel = 0`.  In the `fuel = 0`
case the source still checks retryability first, but both the
non-retryable branch and the exhaustion branch rethrow the error
immediately, so the two branches are merged here. -/
def withRetryGo (op : ℕ → Except JsValue T) (options : ResolvedRetryOptions)
    (rands : ℕ → ℚ) : ℕ → ℕ → RetryRun T
  | 0, attempt =>
    match op attempt with
    | .ok v => { result := .ok v, calls := 1, sleeps := [] }
    | .error e => { result := .error e, calls := 1, sleeps := [] }
  | fuel' + 1, attempt =>
    match op attempt with
    | .ok v => { result := .ok v, calls := 1, sleeps := [] }
    | .error e =>
      if isRetryableError e then
        let d := calculateRetryDelay attempt options (toLuziaError e) (rands attempt)
        let rest := withRetryGo op options rands fuel' (attempt + 1)
        { result := rest.result, calls := rest.calls + 1, sleeps := d :: rest.sleeps }
      else
        { result := .error e, calls := 1, sleeps := [] }

/-- `withRetry` from `src/retry.ts`: resolve the options, then run the
attempt loop starting at attempt 0 with `maxRetries` retries allowed. -/
def withRetry (op : ℕ → Except JsValue T) (options : Option RetryOptions)
    (rands : ℕ → ℚ) : RetryRun T :=
  let resolved := resolveRetryOptions options
  withRetryGo op resolved rands resolved.maxRetries 0

/-!
## Error factory (`src/errors.ts`): header parsing and the 429 case

JavaScript `parseInt(s, 10)` can produce `NaN`; `JsNum` makes that
explicit.  Header lookups (`Headers.get`) return `null` or a string,
modelled as `Option String`; JavaScript truthiness on such a value is
false exactly for `null` and the empty string.
-/

/-- A JavaScript number that may be `NaN`. -/
inductive JsNum where
  | nan
  | num (q : ℚ)
deriving DecidableEq, Repr

/-- JavaScript `+` on numbers: `NaN` absorbs. -/
def JsNum.add : JsNum → JsNum → JsNum
  | .num a, .num b => .num (a + b)
  | _, _ => .nan

/-- Numeric value of a digit character. -/
def digitVal (c : Char) : ℕ := c.toNat - '0'.toNat

/-- Value of a non-empty digit string. -/
def digitsToNat (ds : List Char) : ℕ :=
  ds.foldl (fun acc c => acc * 10 + digitVal c) 0

/-- Integer core of JavaScript `parseInt(s, 10)`: skip leading
whitespace, read an optional sign, then the maximal prefix of decimal
digits; `none` when no digit follows (the `NaN` case). -/
def parseIntCore (s : String) : Option ℤ :=
  let t := s.data.dropWhile (fun c => c = ' ' ∨ c = '\t' ∨ c = '\n' ∨ c = '\r')
  let signAndRest : ℤ × List Char :=
    match t with
    | '-' :: r => (-1, r)
    | '+' :: r => (1, r)
    | r => (1, r)
  let ds := signAndRest.2.takeWhile Char.isDigit
  if ds = [] then none
  else some (signAndRest.1 * (digitsToNat ds : ℤ))

/-- JavaScript `parseInt(s, 10)` as a JavaScript number. -/
def parseIntJs (s : String) : JsNum :=
  match parseIntCore s with
  | none => .nan
  | some n => .num (n : ℚ)

/-- JavaScript truthiness of a nullable string: false for `null` and
`""`. -/
def truthyStr (o : Option String) : Bool :=
  match o with
  | none => false
  | some s => s ≠ ""

/-- The response headers the SDK reads, as returned by `headers.get` on
each name (`none` = header absent). -/
structure RespHeaders where
  retryAfterHdr : Option String := none
  rlLimit : Option String := none
  rlRemaining : Option String := none
  rlReset : Option String := none
  rlDailyLimit : Option String := none
  rlDailyRemaining : Option String := none
  rlDailyReset : Option String := none
deriving DecidableEq, Repr

/-- `RateLimitInfo` as produced by the SDK: the three mandatory fields
are `parseInt` results (possibly `NaN`), the daily fields are set only
when their header is truthy. -/
structure RateLimitInfo where
  limit : JsNum
  remaining : JsNum
  reset : JsNum
  dailyLimit : Option JsNum := none
  dailyRemaining : Option JsNum := none
  dailyReset : Option JsNum := none
deriving DecidableEq, Repr

/-- `parseRateLimitHeaders` from `src/errors.ts`: if any of the three
`X-RateLimit-{Limit,Remaining,Reset}` headers is falsy (absent or empty)
the result is `null`; otherwise all three are parsed, and the daily
variants are added when their header is truthy. -/
def parseRateLimitHeaders (h : RespHeaders) : Option RateLimitInfo :=
  if truthyStr h.rlLimit ∧ truthyStr h.rlRemaining ∧ truthyStr h.rlReset then
    some
      { limit := parseIntJs (h.rlLimit.getD "")
        remaining := parseIntJs (h.rlRemaining.getD "")
        reset := parseIntJs (h.rlReset.getD "")
        dailyLimit :=
          if truthyStr h.rlDailyLimit then some (parseIntJs (h.rlDailyLimit.getD "")) else none
        dailyRemaining :=
          if truthyStr h.rlDailyRemaining then some (parseIntJs (h.rlDailyRemaining.getD ""))
          else none
        dailyReset :=
          if truthyStr h.rlDailyReset then some (parseIntJs (h.rlDailyReset.getD "")) else none }
  else none

/-- The fields of a parsed 429 response body that the error factory
reads (`RateLimitErrorResponse`); `none` models a missing body or a body
without the field. -/
structure RateLimitBody where
  limit : Option ℚ := none
deriving DecidableEq, Repr

/-- `rateLimitBody?.limit || 0`: falsy (absent or zero) falls back to
`0`. -/
def bodyLimitOrZero (body : Option RateLimitBody) : ℚ :=
  match body with
  | none => 0
  | some b =>
    match b.limit with
    | none => 0
    | some q => if q = 0 then 0 else q

/-- The fields of the `LuziaError` built by the 429 branch of
`createErrorFromResponse` that the spec claims describe.  `retryAfter`
is a `parseInt` result and may be `NaN`. -/
structure RateLimitSdkError where
  status : ℤ
  code : ErrorCode
  retryAfter : JsNum
  rateLimitInfo : RateLimitInfo
deriving DecidableEq, Repr

/-- The 429 case of `createErrorFromResponse` (`src/errors.ts`).
`rateLimitInfoArg` is the caller-supplied info (in `client.ts` this is
`parseRateLimitHeaders` of the same headers, possibly `null`); `nowSec`
is `Math.floor(Date.now() / 1000)`.  `retryAfter` is
`parseInt(headers.get(retry-after) || '60', 10)`; the info falls back
from the argument to the parsed headers to a synthesized record. -/
def createError429 (h : RespHeaders) (body : Option RateLimitBody)
    (rateLimitInfoArg : Option RateLimitInfo) (nowSec : ℤ) : RateLimitSdkError :=
  let retryAfter :=
    parseIntJs
      (match h.retryAfterHdr with
        | none => "60"
        | some s => if s = "" then "60" else s)
  let info :=
    match rateLimitInfoArg with
    | some i => i
    | none =>
      match parseRateLimitHeaders h with
      | some i => i
      | none =>
        { limit := .num (bodyLimitOrZero body)
          remaining := .num 0
          reset := JsNum.add (.num nowSec) retryAfter }
  { status := 429
    code := .rate_limit
    retryAfter := retryAfter
    rateLimitInfo := info }

/-!
## Client (`src/client.ts`): rate-limit bookkeeping, symbol transform,
constructor
-/

/-- The rate-limit bookkeeping step of `Luzia._doRequest`
(`src/client.ts`): parse the headers and, only when the parse yields
info, replace the stored most-recent info wholesale.  The surrounding
code runs this before the `response.ok` check, so it is independent of
the response status, which is made explicit by the unused `status`
parameter. -/
def updateRateLimitInfo (_respStatus : ℤ) (stored : Option RateLimitInfo)
    (h : RespHeaders) : Option RateLimitInfo :=
  match parseRateLimitHeaders h with
  | some info => some info
  | none => stored

/-- `Luzia.symbolToUrl`: `replaceAll('/', '-')` on the symbol's
characters. -/
def symbolToUrl (s : List Char) : List Char :=
  s.map (fun c => if c = '/' then '-' else c)

/-- `Luzia.symbolFromUrl`: `replaceAll('-', '/')` on the symbol's
characters. -/
def symbolFromUrl (s : List Char) : List Char :=
  s.map (fun c => if c = '-' then '/' else c)

/-- `LuziaOptions` fields read by the `Luzia` constructor.  `apiKey` is
`none` when absent (JavaScript truthiness also rejects `""`). -/
structure LuziaOptions where
  apiKey : Option String := none
  baseUrl : Option String := none
  timeout : Option ℚ := none
deriving DecidableEq, Repr

/-- `DEFAULT_OPTIONS.baseUrl` from `src/client.ts`. -/
def DEFAULT_BASE_URL : String := "https://api.luzia.dev"

/-- `DEFAULT_OPTIONS.timeout` from `src/client.ts`. -/
def DEFAULT_TIMEOUT : ℚ := 30000

/-- `.replace(/\x2f$/, '')`: drop one trailing slash when present. -/
def stripTrailingSlash (s : String) : String :=
  match s.data.reverse with
  | '/' :: rest => ⟨rest.reverse⟩
  | _ => s

/-- The state a successfully constructed `Luzia` client holds (the
fields assigned by the constructor that the claims mention). -/
structure ClientState where
  apiKey : String
  baseUrl : String
  timeout : ℚ
deriving DecidableEq, Repr

/-- The error thrown by the constructor: a `LuziaError` built with a
message only, so its code defaults to `unknown`. -/
structure ConstructorError where
  message : String
  code : ErrorCode
deriving DecidableEq, Repr

/-- The `Luzia` constructor (`src/client.ts`): throw when `apiKey` is
falsy, otherwise record the key, the base URL (defaulted when falsy,
then stripped of one trailing slash) and the timeout — no I/O is
performed. -/
def luziaConstructor (o : LuziaOptions) : Except ConstructorError ClientState :=
  if truthyStr o.apiKey then
    .ok
      { apiKey := o.apiKey.getD ""
        baseUrl :=
          stripTrailingSlash
            (if truthyStr o.baseUrl then o.baseUrl.getD "" else DEFAULT_BASE_URL)
        timeout := o.timeout.getD DEFAULT_TIMEOUT }
  else .error { message := "API key is required", code := .unknown }

/-!
## Streaming session (`src/websocket.ts`)

The `LuziaWebSocket` instance state is a record; each handler or method
is a function from state (plus the random draws it makes) to the new
state, the events emitted to listeners, and the frames sent on the
transport.  Timers are modelled by `Bool` flags (a timer is pending or
not) plus explicit fire actions; a cancelled timer never fires because
the fire action is a no-op once the flag is cleared, exactly as
`clearTimeout` guarantees.  The live transport handle is `wsAttached`;
`cleanup` nulls the callbacks and drops the handle, so transport events
(`message`, `close`) are no-ops when `wsAttached = false`.
-/

/-- `WSConnectionState` from `src/websocket.ts`. -/
inductive WSConnState where
  | disconnected
  | connecting
  | connected
  | reconnecting
deriving DecidableEq, Repr

/-- JavaScript `Set.add`: append if absent (insertion order kept). -/
def setAdd (l : List String) (x : String) : List String :=
  if x ∈ l then l else l ++ [x]

/-- JavaScript `Set.delete`: remove the element. -/
def setDelete (l : List String) (x : String) : List String :=
  l.filter (fun y => y ≠ x)

/-- Events delivered to listeners (`WSEventMap` in `src/websocket.ts`),
with the payload fields the claims talk about. -/
inductive WSEvent where
  | connectedEv
  | tickerEv
  | subscribedEv (channel : String)
  | unsubscribedEv (channel : String)
  | errorEv (code : String)
  | disconnectedEv (code : ℤ) (reason : String)
  | reconnectingEv (attempt : ℕ) (delayMs : ℤ)
deriving DecidableEq, Repr

/-- Frames the client sends on the transport. -/
inductive WSSend where
  | subscribeMsg (channels : List String)
  | unsubscribeMsg (channels : List String)
  | pingMsg
deriving DecidableEq, Repr

/-- Parsed server messages (`WSServerMessage`), plus `malformed` for a
payload `JSON.parse` rejects. -/
inductive WSServerMsg where
  | connectedMsg
  | tickerMsg
  | subscribedMsg (channel : String)
  | unsubscribedMsg (channel : String)
  | errorMsg (code : String)
  | pongMsg
  | malformed
deriving DecidableEq, Repr

/-- The mutable state of a `LuziaWebSocket` instance: the resolved
options (`autoReconnect` is mutated by `disconnect`), the connection
state, the reconnect counter, the two timer flags, the transport handle
flag, and the two subscription sets. -/
structure WSState where
  autoReconnect : Bool
  maxReconnectAttempts : ℕ
  reconnectDelayMs : ℚ
  maxReconnectDelayMs : ℚ
  heartbeatIntervalMs : ℚ
  state : WSConnState
  reconnectAttempts : ℕ
  reconnectTimer : Bool
  heartbeatTimer : Bool
  wsAttached : Bool
  pending : List String
  active : List String
deriving DecidableEq, Repr

/-- A fresh `LuziaWebSocket` with the given options (defaults as in
`DEFAULT_WS_OPTIONS`). -/
def initWSState (autoReconnect : Bool := true) (maxReconnectAttempts : ℕ := 10)
    (reconnectDelayMs : ℚ := 1000) (maxReconnectDelayMs : ℚ := 30000)
    (heartbeatIntervalMs : ℚ := 30000) : WSState :=
  { autoReconnect := autoReconnect
    maxReconnectAttempts := maxReconnectAttempts
    reconnectDelayMs := reconnectDelayMs
    maxReconnectDelayMs := maxReconnectDelayMs
    heartbeatIntervalMs := heartbeatIntervalMs
    state := .disconnected
    reconnectAttempts := 0
    reconnectTimer := false
    heartbeatTimer := false
    wsAttached := false
    pending := []
    active := [] }

/-- `Math.round`: round half away from zero toward `+∞`, i.e.
`⌊q + 1/2⌋`. -/
def jsRound (q : ℚ) : ℤ := ⌊q + 1/2⌋

/-- `scheduleReconnect` (`src/websocket.ts`): bail out when
auto-reconnect is off; emit a `MAX_RECONNECT` error when the attempt
budget is exhausted; otherwise compute the exponential delay from the
current (pre-increment) counter, jitter it by `0.5 + rand`, increment
the counter, enter `reconnecting`, emit the `reconnecting` event and arm
the reconnect timer. -/
def scheduleReconnect (s : WSState) (rand : ℚ) : WSState × List WSEvent :=
  if ¬s.autoReconnect then (s, [])
  else if s.maxReconnectAttempts > 0 ∧ s.reconnectAttempts ≥ s.maxReconnectAttempts then
    (s, [.errorEv "MAX_RECONNECT"])
  else
    let delay := min (s.reconnectDelayMs * 2 ^ s.reconnectAttempts) s.maxReconnectDelayMs
    let jitteredDelay := delay * (1/2 + rand)
    let s' :=
      { s with
        reconnectAttempts := s.reconnectAttempts + 1
        state := .reconnecting
        reconnectTimer := true }
    (s', [.reconnectingEv (s.reconnectAttempts + 1) (jsRound jitteredDelay)])

/-- `doConnect` (`src/websocket.ts`): construct the transport; on
success attach it (with its callbacks), on constructor failure emit a
`CONNECTION_FAILED` error and schedule a reconnect.  `ctorOk` tells
whether `new WebSocket(...)` succeeds. -/
def doConnect (s : WSState) (ctorOk : Bool) (rand : ℚ) : WSState × List WSEvent :=
  if ctorOk then ({ s with wsAttached := true }, [])
  else
    let (s', evs) := scheduleReconnect s rand
    (s', .errorEv "CONNECTION_FAILED" :: evs)

/-- `connect` (`src/websocket.ts`): no-op when already `connected` or
`connecting`; otherwise enter `connecting` and run `doConnect`. -/
def wsConnect (s : WSState) (ctorOk : Bool) (rand : ℚ) : WSState × List WSEvent :=
  if s.state = .connected ∨ s.state = .connecting then (s, [])
  else doConnect { s with state := .connecting } ctorOk rand

/-- `cleanup` (`src/websocket.ts`): stop the heartbeat, cancel a pending
reconnect timer, null the transport callbacks and close and drop the
handle. -/
def wsCleanup (s : WSState) : WSState :=
  { s with heartbeatTimer := false, reconnectTimer := false, wsAttached := false }

/-- `disconnect` (`src/websocket.ts`): permanently disable
auto-reconnect, run `cleanup`, and force the `disconnected` state. -/
def wsDisconnect (s : WSState) : WSState :=
  { wsCleanup s with autoReconnect := false, state := .disconnected }

/-- `subscribe(channels)` (`src/websocket.ts`): add every channel to the
pending set; send a subscribe frame for exactly these channels only when
currently connected with a live transport. -/
def wsSubscribe (s : WSState) (channels : List String) : WSState × List WSSend :=
  let s' := { s with pending := channels.foldl setAdd s.pending }
  if s'.state = .connected ∧ s'.wsAttached then (s', [.subscribeMsg channels])
  else (s', [])

/-- `unsubscribe(channels)` (`src/websocket.ts`): remove every channel
from both sets; send an unsubscribe frame only when connected with a
live transport. -/
def wsUnsubscribe (s : WSState) (channels : List String) : WSState × List WSSend :=
  let s' :=
    { s with
      pending := channels.foldl setDelete s.pending
      active := channels.foldl setDelete s.active }
  if s'.state = .connected ∧ s'.wsAttached then (s', [.unsubscribeMsg channels])
  else (s', [])

/-- `ping` (`src/websocket.ts`): send a ping frame only when connected
with a live transport. -/
def wsPing (s : WSState) : List WSSend :=
  if s.state = .connected ∧ s.wsAttached then [.pingMsg] else []

/-- `startHeartbeat`: no-op when the interval is not positive, otherwise
(re)arm the heartbeat timer. -/
def startHeartbeat (s : WSState) : WSState :=
  if s.heartbeatIntervalMs ≤ 0 then s else { s with heartbeatTimer := true }

/-- `handleMessage` (`src/websocket.ts`): the dispatch on the parsed
server message.  On `connected`: enter the `connected` state, reset the
reconnect counter, start the heartbeat, emit `connected`, and when any
subscriptions are pending send one bulk subscribe frame for all of them.
On `subscribed`: add the channel to the active set and emit (the pending
set is not touched).  On `unsubscribed`: remove the channel from both
sets and emit.  `error` is re-emitted; `ticker` is emitted; `pong` and
malformed payloads are dropped. -/
def handleMessage (s : WSState) (m : WSServerMsg) : WSState × List WSEvent × List WSSend :=
  match m with
  | .connectedMsg =>
    let s' := startHeartbeat { s with state := .connected, reconnectAttempts := 0 }
    let sends :=
      if s'.pending.length > 0 ∧ s'.wsAttached then [WSSend.subscribeMsg s'.pending] else []
    (s', [.connectedEv], sends)
  | .tickerMsg => (s, [.tickerEv], [])
  | .subscribedMsg c => ({ s with active := setAdd s.active c }, [.subscribedEv c], [])
  | .unsubscribedMsg c =>
    ({ s with active := setDelete s.active c, pending := setDelete s.pending c },
      [.unsubscribedEv c], [])
  | .errorMsg code => (s, [.errorEv code], [])
  | .pongMsg => (s, [], [])
  | .malformed => (s, [], [])

/-- The `onclose` handler installed by `doConnect`: stop the heartbeat,
remember whether the session was `connected`, enter `disconnected`, emit
`disconnected`, and schedule a reconnect only when it was connected and
auto-reconnect is enabled. -/
def handleClose (s : WSState) (code : ℤ) (reason : String) (rand : ℚ) :
    WSState × List WSEvent :=
  let wasConnected := s.state = .connected
  let s₁ := { s with heartbeatTimer := false, state := .disconnected }
  if wasConnected ∧ s₁.autoReconnect then
    let (s₂, evs) := scheduleReconnect s₁ rand
    (s₂, .disconnectedEv code reason :: evs)
  else (s₁, [.disconnectedEv code reason])

/-- The externally triggerable steps of a session: caller API calls,
transport callbacks, and timer firings.  Transport callbacks carry no
effect once the handle is detached; timer firings carry none once the
timer is cancelled. -/
inductive WSAction where
  | connectA (ctorOk : Bool) (rand : ℚ)
  | disconnectA
  | subscribeA (channels : List String)
  | unsubscribeA (channels : List String)
  | pingA
  | messageA (m : WSServerMsg)
  | closeA (code : ℤ) (reason : String) (rand : ℚ)
  | reconnectTimerFireA (ctorOk : Bool) (rand : ℚ)
  | heartbeatFireA

/-- One step of the session: dispatch an action to the handler it
triggers in `src/websocket.ts`, with the guards that make detached
transports and cancelled timers inert. -/
def wsStep (s : WSState) (a : WSAction) : WSState × List WSEvent × List WSSend :=
  match a with
  | .connectA ctorOk rand =>
    let (s', evs) := wsConnect s ctorOk rand
    (s', evs, [])
  | .disconnectA => (wsDisconnect s, [], [])
  | .subscribeA chs =>
    let (s', sends) := wsSubscribe s chs
    (s', [], sends)
  | .unsubscribeA chs =>
    let (s', sends) := wsUnsubscribe s chs
    (s', [], sends)
  | .pingA => (s, [], wsPing s)
  | .messageA m => if s.wsAttached then handleMessage s m else (s, [], [])
  | .closeA code reason rand =>
    if s.wsAttached then
      let (s', evs) := handleClose s code reason rand
      (s', evs, [])
    else (s, [], [])
  | .reconnectTimerFireA ctorOk rand =>
    if s.reconnectTimer then
      let (s', evs) := doConnect { s with reconnectTimer := false } ctorOk rand
      (s', evs, [])
    else (s, [], [])
  | .heartbeatFireA => if s.heartbeatTimer then (s, [], wsPing s) else (s, [], [])

/-- Run a sequence of steps, collecting all emitted events. -/
def wsRun (s : WSState) : List WSAction → WSState × List WSEvent
  | [] => (s, [])
  | a :: rest =>
    let o := wsStep s a
    let r := wsRun o.1 rest
    (r.1, o.2.1 ++ r.2)

/-- Whether an event is a `reconnecting` event. -/
def isReconnectingEv : WSEvent → Bool
  | .reconnectingEv _ _ => true
  | _ => false

/-!
## Claims about the retry engine
-/

/-- C2: for every attempt and resolved options, a `rate_limit` error
carrying a retry-after hint makes `calculateRetryDelay` return
`min(hintSeconds·1000 + 100, maxDelayMs)` regardless of the attempt;
otherwise with jitter disabled it returns
`min(initialDelayMs · backoffMultiplier ^ attempt, maxDelayMs)`, and
with jitter enabled the exponential delay is multiplied by the factor
`0.5 + rand ∈ [0.5, 1.5)` before clamping to `maxDelayMs`. -/
theorem calculateRetryDelay_spec (attempt : ℕ) (options : ResolvedRetryOptions)
    (err : Option LuziaError) (rand : ℚ) :
    (∀ e ra, err = some e → e.code = ErrorCode.rate_limit → e.retryAfter = some ra →
      calculateRetryDelay attempt options err rand = min (ra * 1000 + 100) options.maxDelayMs)
    ∧ (rateLimitHint err = none → options.jitter = false →
      calculateRetryDelay attempt options err rand =
        min (options.initialDelayMs * options.backoffMultiplier ^ attempt) options.maxDelayMs)
    ∧ (rateLimitHint err = none → options.jitter = true → 0 ≤ rand → rand < 1 →
      calculateRetryDelay attempt options err rand =
        min (options.initialDelayMs * options.backoffMultiplier ^ attempt * (1/2 + rand))
          options.maxDelayMs
      ∧ 1/2 ≤ 1/2 + rand ∧ 1/2 + rand < 3/2) := by
  refine ⟨?_, ?_, ?_⟩
  · intro e ra herr hcode hra
    subst herr
    simp [calculateRetryDelay, rateLimitHint, hcode, hra, RATE_LIMIT_BUFFER_MS]
  · intro hhint hj
    simp [calculateRetryDelay, hhint, hj]
  · intro hhint hj h0 h1
    refine ⟨?_, by linarith, by linarith⟩
    simp [calculateRetryDelay, hhint, hj]

/-- Witness for `calculateRetryDelay_spec`: concrete evaluations of all
three cases. -/
theorem calculateRetryDelay_spec_witness :
    calculateRetryDelay 5 DEFAULT_RETRY_OPTIONS
        (some { status := some 429, code := .rate_limit, retryAfter := some 20 }) 0 =
      min (20 * 1000 + 100) 30000
    ∧ calculateRetryDelay 2
        { maxRetries := 3, initialDelayMs := 1000, maxDelayMs := 30000,
          backoffMultiplier := 2, jitter := false } none 0 =
      min (1000 * 2 ^ 2) 30000
    ∧ calculateRetryDelay 2 DEFAULT_RETRY_OPTIONS none (1/4) =
      min (1000 * 2 ^ 2 * (1/2 + 1/4)) 30000 := by
  refine ⟨?_, ?_, ?_⟩
  · exact (calculateRetryDelay_spec 5 DEFAULT_RETRY_OPTIONS
      (some { status := some 429, code := .rate_limit, retryAfter := some 20 }) 0).1
      _ _ rfl rfl rfl
  · exact (calculateRetryDelay_spec 2
      { maxRetries := 3, initialDelayMs := 1000, maxDelayMs := 30000,
        backoffMultiplier := 2, jitter := false } none 0).2.1 rfl rfl
  · exact ((calculateRetryDelay_spec 2 DEFAULT_RETRY_OPTIONS none (1/4)).2.2 rfl rfl
      (by norm_num) (by norm_num)).1

/-- C3 (counterexample): a `LuziaError` with code `auth` and status 500
is classified retryable, although its code is neither in the retryable
set nor `unknown` — the status fallback is not restricted to
absent/unknown codes as the claim states. -/
theorem isRetryableError_claim_counterexample :
    isRetryableError (.luzia { status := some 500, code := .auth, retryAfter := none }) = true
    ∧ ¬(codeRetryable ErrorCode.auth = true
        ∨ (ErrorCode.auth = ErrorCode.unknown
            ∧ ((500 : ℤ) = 408 ∨ (500 : ℤ) = 429 ∨ (500 : ℤ) ≥ 500))) := by
  decide

/-- C3 (amended): the classifier returns true iff the value is a
`LuziaError` whose code is in the retryable set, or — whenever the code
is *any* code outside that set, not only `unknown` — whose defined
numeric status is 408, 429 or ≥ 500; every non-`LuziaError` value is not
retryable. -/
theorem isRetryableError_characterization (v : JsValue) :
    isRetryableError v = true ↔
      ∃ e, v = .luzia e ∧
        (codeRetryable e.code = true
          ∨ (codeRetryable e.code = false
              ∧ ∃ st, e.status = some st ∧ (st = 408 ∨ st = 429 ∨ st ≥ 500))) := by
  cases v with
  | other => simp [isRetryableError]
  | luzia e =>
    by_cases hc : codeRetryable e.code
    · simp [isRetryableError, hc]
    · cases hst : e.status with
      | none =>
        simp [isRetryableError, hc, hst]
      | some st =>
        have hc' : codeRetryable e.code = false := by simpa using hc
        simp [isRetryableError, hc', hst, decide_eq_true_eq]

/-!
## Claims about the client helpers
-/

/-- C9 (counterexample): `"BTC/USDT"` contains a single separator and no
other dash or slash, yet `symbolToUrl (symbolFromUrl s) ≠ s`: the two
composites are identities only in the direction matching the string's
format. -/
theorem symbol_roundtrip_counterexample :
    ("BTC/USDT".data.count '/' + "BTC/USDT".data.count '-' = 1)
    ∧ symbolToUrl (symbolFromUrl "BTC/USDT".data) ≠ "BTC/USDT".data
    ∧ symbolToUrl (symbolFromUrl "BTC/USDT".data) = "BTC-USDT".data := by
  decide

/-- C9 (amended): the symbol transform round-trips per direction:
`symbolFromUrl (symbolToUrl s) = s` for strings without dashes, and
`symbolToUrl (symbolFromUrl s) = s` for strings without slashes; in
particular a string with a single separator round-trips in the direction
matching its format. -/
theorem symbol_roundtrip (s : List Char) :
    ('-' ∉ s → symbolFromUrl (symbolToUrl s) = s)
    ∧ ('/' ∉ s → symbolToUrl (symbolFromUrl s) = s) := by
  constructor
  · intro h
    induction s with
    | nil => rfl
    | cons c t ih =>
      have hc : c ≠ '-' := fun hc => h (hc ▸ List.mem_cons_self c t)
      have ht : '-' ∉ t := fun hm => h (List.mem_cons_of_mem c hm)
      simp only [symbolToUrl, symbolFromUrl, List.map_cons] at *
      refine List.cons_eq_cons.mpr ⟨?_, ih ht⟩
      by_cases hcs : c = '/' <;> simp [hcs, hc]
  · intro h
    induction s with
    | nil => rfl
    | cons c t ih =>
      have hc : c ≠ '/' := fun hc => h (hc ▸ List.mem_cons_self c t)
      have ht : '/' ∉ t := fun hm => h (List.mem_cons_of_mem c hm)
      simp only [symbolToUrl, symbolFromUrl, List.map_cons] at *
      refine List.cons_eq_cons.mpr ⟨?_, ih ht⟩
      by_cases hcs : c = '-' <;> simp [hcs, hc]

/-- Witness for `symbol_roundtrip`: both directions on the concrete
symbols. -/
theorem symbol_roundtrip_witness :
    symbolFromUrl (symbolToUrl "BTC/USDT".data) = "BTC/USDT".data
    ∧ symbolToUrl (symbolFromUrl "BTC-USDT".data) = "BTC-USDT".data := by
  exact ⟨(symbol_roundtrip "BTC/USDT".data).1 (by decide),
    (symbol_roundtrip "BTC-USDT".data).2 (by decide)⟩

/-- C10: constructing the client with an absent or empty `apiKey` throws
a `LuziaError` with code `unknown` and message "API key is required"
(and performs no transport use — the constructor is a pure function in
this embedding); with a non-empty `apiKey` construction succeeds, the
base URL falls back to the default when falsy and one trailing slash is
stripped from it; a string not ending in a slash is left unchanged. -/
theorem luziaConstructor_spec (o : LuziaOptions) :
    (truthyStr o.apiKey = false →
      luziaConstructor o = .error { message := "API key is required", code := .unknown })
    ∧ (∀ k, o.apiKey = some k → k ≠ "" →
      luziaConstructor o =
        .ok
          { apiKey := k
            baseUrl :=
              stripTrailingSlash
                (if truthyStr o.baseUrl then o.baseUrl.getD "" else DEFAULT_BASE_URL)
            timeout := o.timeout.getD DEFAULT_TIMEOUT })
    ∧ (∀ u : String, stripTrailingSlash (u ++ "/") = u)
    ∧ (∀ u : String, u.data.getLast? ≠ some '/' → stripTrailingSlash u = u) := by
  refine ⟨?_, ?_, ?_, ?_⟩
  · intro h
    simp [luziaConstructor, h]
  · intro k hk hne
    have ht : truthyStr (some k) = true := by simp [truthyStr, hne]
    simp [luziaConstructor, hk, ht]
  · intro u
    cases u with
    | mk data =>
      show stripTrailingSlash ⟨data ++ '/' :: []⟩ = ⟨data⟩
      simp [stripTrailingSlash]
  · intro u h
    cases u with
    | mk data =>
      cases hrev : data.reverse with
      | nil => simp [stripTrailingSlash, hrev]
      | cons c rest =>
        have hlast : data.getLast? = some c := by
          rw [List.getLast?_eq_head?_reverse, hrev]
          rfl
        have hc : c ≠ '/' := by
          intro hc
          exact h (by simpa [hc] using hlast)
        simp only [stripTrailingSlash, hrev]
        cases hcc : c
        simp_all [stripTrailingSlash]

/-- Witness for `luziaConstructor_spec`: the failure case on an empty
key, the success case on a concrete key with a trailing-slash base URL,
and the two `stripTrailingSlash` facts on concrete strings. -/
theorem luziaConstructor_spec_witness :
    luziaConstructor { apiKey := some "" } =
      .error { message := "API key is required", code := .unknown }
    ∧ luziaConstructor { apiKey := some "lz_key", baseUrl := some "https://x.example/" } =
      .ok { apiKey := "lz_key", baseUrl := stripTrailingSlash "https://x.example/",
            timeout := DEFAULT_TIMEOUT }
    ∧ stripTrailingSlash ("https://x.example" ++ "/") = "https://x.example"
    ∧ stripTrailingSlash "https://api.luzia.dev" = "https://api.luzia.dev" := by
  refine ⟨?_, ?_, ?_, ?_⟩
  · exact (luziaConstructor_spec { apiKey := some "" }).1 (by decide)
  · exact (luziaConstructor_spec
      { apiKey := some "lz_key", baseUrl := some "https://x.example/" }).2.1
      "lz_key" rfl (by decide)
  · exact (luziaConstructor_spec { apiKey := none }).2.2.1 "https://x.example"
  · exact (luziaConstructor_spec { apiKey := none }).2.2.2 "https://api.luzia.dev" (by decide)

/-- C8 (counterexample): all three rate-limit headers are present, but
the limit header carries the empty string, which is falsy in the
JavaScript guard: the parse yields nothing and the stored info is left
unchanged, although the claim promises wholesale replacement whenever
all three headers are present. -/
theorem rateLimit_update_counterexample :
    ({ rlLimit := some "", rlRemaining := some "100",
       rlReset := some "1700000000" : RespHeaders }.rlLimit ≠ none
      ∧ ({ rlLimit := some "", rlRemaining := some "100",
           rlReset := some "1700000000" : RespHeaders }).rlRemaining ≠ none
      ∧ ({ rlLimit := some "", rlRemaining := some "100",
           rlReset := some "1700000000" : RespHeaders }).rlReset ≠ none)
    ∧ parseRateLimitHeaders
        { rlLimit := some "", rlRemaining := some "100", rlReset := some "1700000000" } = none
    ∧ updateRateLimitInfo 200
        (some { limit := .num 7, remaining := .num 3, reset := .num 5 })
        { rlLimit := some "", rlRemaining := some "100", rlReset := some "1700000000" } =
      some { limit := .num 7, remaining := .num 3, reset := .num 5 } := by
  decide

/-- C8 (amended): rate-limit metadata is parsed all-or-nothing — if any
of the three headers is falsy (absent or empty) the parse yields no
metadata and the stored info is unchanged; when all three are present
with non-empty values the stored info is replaced wholesale by the
parse, regardless of its previous value; the update is independent of
the response status, so it happens on error responses too. -/
theorem rateLimit_update_spec (respStatus : ℤ) (stored : Option RateLimitInfo)
    (h : RespHeaders) :
    (¬(truthyStr h.rlLimit = true ∧ truthyStr h.rlRemaining = true
          ∧ truthyStr h.rlReset = true) →
      parseRateLimitHeaders h = none ∧ updateRateLimitInfo respStatus stored h = stored)
    ∧ ((truthyStr h.rlLimit = true ∧ truthyStr h.rlRemaining = true
          ∧ truthyStr h.rlReset = true) →
      (parseRateLimitHeaders h).isSome = true
        ∧ updateRateLimitInfo respStatus stored h = parseRateLimitHeaders h)
    ∧ (∀ respStatus' : ℤ,
        updateRateLimitInfo respStatus stored h = updateRateLimitInfo respStatus' stored h) := by
  refine ⟨?_, ?_, fun _ => rfl⟩
  · intro hfalsy
    have hp : parseRateLimitHeaders h = none := by
      simp only [parseRateLimitHeaders]
      rw [if_neg]
      intro hcon
      exact hfalsy ⟨hcon.1, hcon.2.1, hcon.2.2⟩
    exact ⟨hp, by simp [updateRateLimitInfo, hp]⟩
  · intro htruthy
    have hp : (parseRateLimitHeaders h).isSome = true := by
      simp only [parseRateLimitHeaders]
      rw [if_pos ⟨htruthy.1, htruthy.2.1, htruthy.2.2⟩]
      rfl
    refine ⟨hp, ?_⟩
    simp only [updateRateLimitInfo]
    cases hcase : parseRateLimitHeaders h with
    | some info => rfl
    | none => rw [hcase] at hp; simp at hp

/-- Witness for `rateLimit_update_spec`: a partial-header response
leaves the store untouched; a full-header response replaces a stale
store. -/
theorem rateLimit_update_spec_witness :
    (parseRateLimitHeaders { rlLimit := some "100", rlRemaining := some "99" } = none
      ∧ updateRateLimitInfo 200
          (some { limit := .num 7, remaining := .num 3, reset := .num 5 })
          { rlLimit := some "100", rlRemaining := some "99" } =
        some { limit := .num 7, remaining := .num 3, reset := .num 5 })
    ∧ ((parseRateLimitHeaders
          { rlLimit := some "100", rlRemaining := some "99",
            rlReset := some "1700000000" }).isSome = true
      ∧ updateRateLimitInfo 503
          (some { limit := .num 7, remaining := .num 3, reset := .num 5 })
          { rlLimit := some "100", rlRemaining := some "99", rlReset := some "1700000000" } =
        parseRateLimitHeaders
          { rlLimit := some "100", rlRemaining := some "99", rlReset := some "1700000000" }) := by
  constructor
  · exact (rateLimit_update_spec 200
      (some { limit := .num 7, remaining := .num 3, reset := .num 5 })
      { rlLimit := some "100", rlRemaining := some "99" }).1 (by decide)
  · exact (rateLimit_update_spec 503
      (some { limit := .num 7, remaining := .num 3, reset := .num 5 })
      { rlLimit := some "100", rlRemaining := some "99", rlReset := some "1700000000" }).2.1
      (by decide)

/-- C7 (counterexample): a 429 response whose `Retry-After` header is
present but unparseable (`"soon"`) yields `retryAfterSeconds = NaN`, not
the claimed default of 60 — `parseInt` is applied to the raw header and
the `|| '60'` fallback fires only for an absent or empty header. -/
theorem createError429_claim_counterexample :
    (createError429 { retryAfterHdr := some "soon" } none none 1700000000).retryAfter = JsNum.nan
    ∧ (createError429 { retryAfterHdr := some "soon" } none none 1700000000).retryAfter ≠
        JsNum.num 60 := by
  decide

/-- Evaluation of `parseInt` on the default string `'60'`. -/
theorem parseIntJs_sixty : parseIntJs "60" = JsNum.num 60 := by
  have h : parseIntCore "60" = some 60 := by decide
  simp [parseIntJs, h]

/-- C7 (amended): the 429 error has code `rate_limit` and status 429;
`retryAfterSeconds` is `parseInt` of the `Retry-After` header, equal to
60 when the header is absent or empty (a present non-empty unparseable
header yields NaN); `rateLimitInfo` comes from the rate-limit headers
when they parse, else is synthesized from the body's limit field with
`remaining = 0` and `reset = now + retryAfterSeconds`. -/
theorem createError429_spec (h : RespHeaders) (body : Option RateLimitBody)
    (arg : Option RateLimitInfo) (nowSec : ℤ) :
    ((createError429 h body arg nowSec).code = ErrorCode.rate_limit
      ∧ (createError429 h body arg nowSec).status = 429)
    ∧ (h.retryAfterHdr = none ∨ h.retryAfterHdr = some "" →
        (createError429 h body arg nowSec).retryAfter = JsNum.num 60)
    ∧ (∀ hdr, h.retryAfterHdr = some hdr → hdr ≠ "" →
        (createError429 h body arg nowSec).retryAfter = parseIntJs hdr)
    ∧ (∀ i, parseRateLimitHeaders h = some i →
        (createError429 h body (parseRateLimitHeaders h) nowSec).rateLimitInfo = i)
    ∧ (parseRateLimitHeaders h = none →
        (createError429 h body (parseRateLimitHeaders h) nowSec).rateLimitInfo =
          { limit := JsNum.num (bodyLimitOrZero body)
            remaining := JsNum.num 0
            reset :=
              JsNum.add (JsNum.num nowSec)
                (createError429 h body (parseRateLimitHeaders h) nowSec).retryAfter }) := by
  refine ⟨⟨rfl, rfl⟩, ?_, ?_, ?_, ?_⟩
  · rintro (hh | hh) <;> simp [createError429, hh, parseIntJs_sixty]
  · intro hdr hh hne
    simp [createError429, hh, hne]
  · intro i hi
    simp [createError429, hi]
  · intro hp
    simp [createError429, hp]

/-- Witness for `createError429_spec`: the spec's own example (a 429
with `Retry-After: 60` and no JSON body yields `retryAfterSeconds = 60`
with a synthesized info record), plus an info record taken from full
rate-limit headers. -/
theorem createError429_spec_witness :
    (createError429 { retryAfterHdr := some "60" } none none 1700000000).code =
      ErrorCode.rate_limit
    ∧ (createError429 { retryAfterHdr := some "60" } none none 1700000000).retryAfter =
        JsNum.num 60
    ∧ (createError429 { retryAfterHdr := some "60" } none
          (parseRateLimitHeaders { retryAfterHdr := some "60" }) 1700000000).rateLimitInfo =
        { limit := JsNum.num 0, remaining := JsNum.num 0, reset := JsNum.num 1700000060 }
    ∧ (createError429
          { rlLimit := some "100", rlRemaining := some "99", rlReset := some "1700000300" }
          none
          (parseRateLimitHeaders
            { rlLimit := some "100", rlRemaining := some "99", rlReset := some "1700000300" })
          1700000000).rateLimitInfo =
        { limit := JsNum.num 100, remaining := JsNum.num 99, reset := JsNum.num 1700000300 } := by
  refine ⟨?_, ?_, ?_, ?_⟩
  · exact (createError429_spec { retryAfterHdr := some "60" } none none 1700000000).1.1
  · rw [(createError429_spec { retryAfterHdr := some "60" } none none 1700000000).2.2.1
      "60" rfl (by decide)]
    exact parseIntJs_sixty
  · have h5 := (createError429_spec { retryAfterHdr := some "60" } none none
      1700000000).2.2.2.2 (by decide)
    have h3 := (createError429_spec { retryAfterHdr := some "60" } none
      (parseRateLimitHeaders { retryAfterHdr := some "60" }) 1700000000).2.2.1
      "60" rfl (by decide)
    rw [h5, h3, parseIntJs_sixty]
    simp [JsNum.add, bodyLimitOrZero]
    norm_num
  · have hp : parseRateLimitHeaders
        { rlLimit := some "100", rlRemaining := some "99", rlReset := some "1700000300" } =
        some { limit := parseIntJs "100", remaining := parseIntJs "99",
               reset := parseIntJs "1700000300" } := rfl
    rw [(createError429_spec
      { rlLimit := some "100", rlRemaining := some "99", rlReset := some "1700000300" }
      none none 1700000000).2.2.2.1 _ hp]
    have h100 : parseIntCore "100" = some 100 := by decide
    have h99 : parseIntCore "99" = some 99 := by decide
    have hreset : parseIntCore "1700000300" = some 1700000300 := by decide
    simp [parseIntJs, h100, h99, hreset]

/-- All-failing runs of the retry loop: when every attempt in reach of
the remaining fuel fails with a retryable error, the loop performs
`fuel + 1` invocations and propagates the error of the last one. -/
theorem withRetryGo_allFail {T : Type} (op : ℕ → Except JsValue T)
    (options : ResolvedRetryOptions) (rands : ℕ → ℚ) (errs : ℕ → JsValue) (fuel : ℕ) :
    ∀ attempt,
      (∀ k, attempt ≤ k → k ≤ attempt + fuel →
        op k = .error (errs k) ∧ isRetryableError (errs k) = true) →
      (withRetryGo op options rands fuel attempt).calls = fuel + 1
        ∧ (withRetryGo op options rands fuel attempt).result = .error (errs (attempt + fuel)) := by
  induction fuel with
  | zero =>
    intro attempt h
    have h0 := h attempt le_rfl (by omega)
    simp [withRetryGo, h0.1, h0.2]
  | succ fuel ih =>
    intro attempt h
    have h0 := h attempt le_rfl (by omega)
    have hrec := ih (attempt + 1) (fun k hk1 hk2 => h k (by omega) (by omega))
    have harith : attempt + 1 + fuel = attempt + (fuel + 1) := by omega
    rw [harith] at hrec
    simp [withRetryGo, h0.1, h0.2, hrec.1, hrec.2]

/-- Runs of the retry loop that hit a non-retryable failure after `j`
retryable ones: `j + 1` invocations, `j` waits, and the non-retryable
error is propagated at once. -/
theorem withRetryGo_stopNonRetryable {T : Type} (op : ℕ → Except JsValue T)
    (options : ResolvedRetryOptions) (rands : ℕ → ℚ) (errs : ℕ → JsValue) :
    ∀ j fuel attempt, j ≤ fuel →
      (∀ k, attempt ≤ k → k < attempt + j →
        op k = .error (errs k) ∧ isRetryableError (errs k) = true) →
      op (attempt + j) = .error (errs (attempt + j)) →
      isRetryableError (errs (attempt + j)) = false →
      (withRetryGo op options rands fuel attempt).calls = j + 1
        ∧ (withRetryGo op options rands fuel attempt).sleeps.length = j
        ∧ (withRetryGo op options rands fuel attempt).result = .error (errs (attempt + j)) := by
  intro j
  induction j with
  | zero =>
    intro fuel attempt _ _ hop hnr
    rw [Nat.add_zero] at hop hnr
    cases fuel with
    | zero => simp [withRetryGo, hop]
    | succ f => simp [withRetryGo, hop, hnr]
  | succ j ih =>
    intro fuel attempt hj h hop hnr
    obtain ⟨fuel', rfl⟩ : ∃ f, fuel = f + 1 := ⟨fuel - 1, by omega⟩
    have h0 := h attempt le_rfl (by omega)
    have harith : attempt + (j + 1) = attempt + 1 + j := by omega
    rw [harith] at hop hnr
    have hrec := ih fuel' (attempt + 1) (by omega)
      (fun k hk1 hk2 => h k (by omega) (by omega)) hop hnr
    simp [withRetryGo, h0.1, h0.2, hrec.1, hrec.2.1, hrec.2.2, harith]

/-- C1: when every invocation up to the bound fails with a retryable
error, `withRetry` invokes the operation exactly `maxRetries + 1` times
and propagates the last observed error unchanged; when the first
failure is non-retryable, it invokes the operation exactly once and
propagates that error with no wait; in general a non-retryable failure
on attempt `j` stops the run at `j + 1` invocations with exactly `j`
waits, propagating it immediately.  (The engine is sequential by
construction in this embedding: invocation `k + 1` starts only after
invocation `k` has returned, so the operation is never run concurrently
with itself.) -/
theorem withRetry_spec {T : Type} (op : ℕ → Except JsValue T)
    (options : Option RetryOptions) (rands : ℕ → ℚ) (errs : ℕ → JsValue) :
    ((∀ k, k ≤ (resolveRetryOptions options).maxRetries →
        op k = .error (errs k) ∧ isRetryableError (errs k) = true) →
      (withRetry op options rands).calls = (resolveRetryOptions options).maxRetries + 1
        ∧ (withRetry op options rands).result =
            .error (errs (resolveRetryOptions options).maxRetries))
    ∧ (∀ e, op 0 = .error e → isRetryableError e = false →
        (withRetry op options rands).calls = 1
          ∧ (withRetry op options rands).sleeps = []
          ∧ (withRetry op options rands).result = .error e)
    ∧ (∀ j, j ≤ (resolveRetryOptions options).maxRetries →
        (∀ k, k < j → op k = .error (errs k) ∧ isRetryableError (errs k) = true) →
        op j = .error (errs j) → isRetryableError (errs j) = false →
        (withRetry op options rands).calls = j + 1
          ∧ (withRetry op options rands).sleeps.length = j
          ∧ (withRetry op options rands).result = .error (errs j)) := by
  refine ⟨?_, ?_, ?_⟩
  · intro h
    have hall := withRetryGo_allFail op (resolveRetryOptions options) rands errs
      (resolveRetryOptions options).maxRetries 0 (fun k _ hk2 => h k (by omega))
    simpa [withRetry] using hall
  · intro e h0 hnr
    have hstop := withRetryGo_stopNonRetryable op (resolveRetryOptions options) rands
      (fun _ => e) 0 (resolveRetryOptions options).maxRetries 0 (by omega)
      (fun k hk1 hk2 => absurd hk2 (by omega)) (by simpa using h0) (by simpa using hnr)
    refine ⟨by simpa [withRetry] using hstop.1, ?_, by simpa [withRetry] using hstop.2.2⟩
    have hlen : (withRetry op options rands).sleeps.length = 0 := by
      simpa [withRetry] using hstop.2.1
    exact List.length_eq_zero.mp hlen
  · intro j hj h hop hnr
    have hstop := withRetryGo_stopNonRetryable op (resolveRetryOptions options) rands errs
      j (resolveRetryOptions options).maxRetries 0 hj
      (fun k _ hk2 => h k (by omega)) (by simpa using hop) (by simpa using hnr)
    simpa [withRetry] using hstop

/-- Witness for `withRetry_spec`: with the default options
(`maxRetries = 3`), an operation that always fails with a retryable
server error is invoked exactly 4 times, and one that fails at once
with a validation error is invoked exactly once with no wait. -/
theorem withRetry_spec_witness :
    (withRetry (T := Unit)
        (fun _ => .error (.luzia { status := some 503, code := .server, retryAfter := none }))
        none (fun _ => 0)).calls = 3 + 1
    ∧ (withRetry (T := Unit)
        (fun _ => .error (.luzia { status := some 400, code := .validation, retryAfter := none }))
        none (fun _ => 0)).calls = 1
    ∧ (withRetry (T := Unit)
        (fun _ => .error (.luzia { status := some 400, code := .validation, retryAfter := none }))
        none (fun _ => 0)).sleeps = [] := by
  refine ⟨?_, ?_, ?_⟩
  · exact ((withRetry_spec
      (fun _ => .error (.luzia { status := some 503, code := .server, retryAfter := none }))
      none (fun _ => 0)
      (fun _ => .luzia { status := some 503, code := .server, retryAfter := none })).1
      (fun k _ => ⟨rfl, by decide⟩)).1
  · exact ((withRetry_spec
      (fun _ => .error (.luzia { status := some 400, code := .validation, retryAfter := none }))
      none (fun _ => 0)
      (fun _ => .luzia { status := some 400, code := .validation, retryAfter := none })).2.1
      _ rfl (by decide)).1
  · exact ((withRetry_spec
      (fun _ => .error (.luzia { status := some 400, code := .validation, retryAfter := none }))
      none (fun _ => 0)
      (fun _ => .luzia { status := some 400, code := .validation, retryAfter := none })).2.1
      _ rfl (by decide)).2.1

/-!
## Claims about the streaming session
-/

/-- An element is a member of the set it was just added to. -/
theorem mem_setAdd_self (l : List String) (x : String) : x ∈ setAdd l x := by
  by_cases h : x ∈ l <;> simp [setAdd, h]

/-- `startHeartbeat` only touches the heartbeat timer flag. -/
theorem startHeartbeat_fields (s : WSState) :
    (startHeartbeat s).pending = s.pending ∧ (startHeartbeat s).active = s.active
      ∧ (startHeartbeat s).wsAttached = s.wsAttached
      ∧ (startHeartbeat s).autoReconnect = s.autoReconnect
      ∧ (startHeartbeat s).state = s.state := by
  unfold startHeartbeat
  split <;> simp

/-- C4 (amended): subscribing while not connected sends nothing and adds
the channel to the pending set; the server handshake then triggers
exactly one outbound subscribe frame carrying the whole pending set
(hence the channel); a subsequent `subscribed` message for the channel
adds it to the active set and fires exactly one `subscribed` event — the
pending set is left unchanged (the channel intentionally stays pending
so that it is re-sent after a reconnection handshake). -/
theorem subscribe_handshake_confirm_spec (s₀ : WSState) (ch : String)
    (hstate : s₀.state ≠ WSConnState.connected) :
    ((wsSubscribe s₀ [ch]).2 = [] ∧ ch ∈ (wsSubscribe s₀ [ch]).1.pending)
    ∧ (∀ s₁ : WSState, ch ∈ s₁.pending → s₁.wsAttached = true →
        (handleMessage s₁ WSServerMsg.connectedMsg).2.2 = [WSSend.subscribeMsg s₁.pending]
          ∧ (handleMessage s₁ WSServerMsg.connectedMsg).2.1 = [WSEvent.connectedEv]
          ∧ (handleMessage s₁ WSServerMsg.connectedMsg).1.pending = s₁.pending)
    ∧ (∀ s₂ : WSState,
        (handleMessage s₂ (WSServerMsg.subscribedMsg ch)).2.1 = [WSEvent.subscribedEv ch]
          ∧ ch ∈ (handleMessage s₂ (WSServerMsg.subscribedMsg ch)).1.active
          ∧ (handleMessage s₂ (WSServerMsg.subscribedMsg ch)).1.pending = s₂.pending) := by
  refine ⟨⟨?_, ?_⟩, ?_, ?_⟩
  · simp only [wsSubscribe]
    rw [if_neg]
    intro hcon
    exact hstate hcon.1
  · simp only [wsSubscribe]
    split <;> simpa using mem_setAdd_self s₀.pending ch
  · intro s₁ hmem hws
    have hfields := startHeartbeat_fields
      { s₁ with state := WSConnState.connected, reconnectAttempts := 0 }
    have hpend : (startHeartbeat
        { s₁ with state := WSConnState.connected, reconnectAttempts := 0 }).pending =
        s₁.pending := hfields.1
    have hwsa : (startHeartbeat
        { s₁ with state := WSConnState.connected, reconnectAttempts := 0 }).wsAttached =
        true := by rw [hfields.2.2.1]; exact hws
    have hlen : 0 < (startHeartbeat
        { s₁ with state := WSConnState.connected, reconnectAttempts := 0 }).pending.length := by
      rw [hpend]
      exact List.length_pos.mpr (List.ne_nil_of_mem hmem)
    refine ⟨?_, rfl, hpend⟩
    simp only [handleMessage]
    rw [if_pos ⟨hlen, hwsa⟩, hpend]
  · intro s₂
    exact ⟨rfl, by simpa [handleMessage] using mem_setAdd_self s₂.active ch, rfl⟩

/-- Witness for `subscribe_handshake_confirm_spec`: the full concrete
flow from a fresh session. -/
theorem subscribe_handshake_confirm_spec_witness :
    ((wsSubscribe (initWSState) ["A"]).2 = []
      ∧ "A" ∈ (wsSubscribe (initWSState) ["A"]).1.pending)
    ∧ ((handleMessage { initWSState with pending := ["A"], wsAttached := true, state := WSConnState.connecting } WSServerMsg.connectedMsg).2.2 =
        [WSSend.subscribeMsg ({ initWSState with pending := ["A"], wsAttached := true, state := WSConnState.connecting } : WSState).pending])
    ∧ ((handleMessage { initWSState with pending := ["A"], active := [], state := WSConnState.connected } (WSServerMsg.subscribedMsg "A")).2.1 =
        [WSEvent.subscribedEv "A"]
      ∧ "A" ∈ (handleMessage { initWSState with pending := ["A"], active := [], state := WSConnState.connected } (WSServerMsg.subscribedMsg "A")).1.active) := by
  refine ⟨(subscribe_handshake_confirm_spec initWSState "A" (by decide)).1, ?_, ?_⟩
  · exact ((subscribe_handshake_confirm_spec initWSState "A" (by decide)).2.1
      { initWSState with pending := ["A"], wsAttached := true, state := WSConnState.connecting } (by decide) rfl).1
  · have h3 := (subscribe_handshake_confirm_spec initWSState "A" (by decide)).2.2
      { initWSState with pending := ["A"], active := [], state := WSConnState.connected }
    exact ⟨h3.1, h3.2.1⟩

/-- C4 (counterexample): running the claimed scenario concretely —
connect, subscribe `"A"`, handshake, `subscribed` confirmation — leaves
`"A"` in the pending set, while the claim states it is no longer
pending after the confirmation. -/
theorem subscribed_leaves_pending_counterexample :
    "A" ∈ (wsRun (initWSState)
        [WSAction.connectA true 0, WSAction.subscribeA ["A"],
         WSAction.messageA WSServerMsg.connectedMsg,
         WSAction.messageA (WSServerMsg.subscribedMsg "A")]).1.pending
    ∧ "A" ∈ (wsRun (initWSState)
        [WSAction.connectA true 0, WSAction.subscribeA ["A"],
         WSAction.messageA WSServerMsg.connectedMsg,
         WSAction.messageA (WSServerMsg.subscribedMsg "A")]).1.active := by
  decide

/-- Evaluation of `scheduleReconnect` when the attempt budget is not
exhausted: the delay uses the pre-increment counter, the counter is then
incremented, the session enters `reconnecting` and the timer is armed. -/
theorem scheduleReconnect_budget_ok (s : WSState) (rand : ℚ)
    (hauto : s.autoReconnect = true)
    (hb : s.maxReconnectAttempts = 0 ∨ s.reconnectAttempts < s.maxReconnectAttempts) :
    scheduleReconnect s rand =
      ({ s with reconnectAttempts := s.reconnectAttempts + 1, state := WSConnState.reconnecting, reconnectTimer := true },
        [WSEvent.reconnectingEv (s.reconnectAttempts + 1)
          (jsRound (min (s.reconnectDelayMs * 2 ^ s.reconnectAttempts) s.maxReconnectDelayMs * (1/2 + rand)))]) := by
  unfold scheduleReconnect
  rw [if_neg (by simp [hauto]), if_neg (by rcases hb with h | h <;> omega)]

/-- Evaluation of `scheduleReconnect` when the attempt budget is
exhausted: no state change, a `MAX_RECONNECT` error event. -/
theorem scheduleReconnect_budget_exhausted (s : WSState) (rand : ℚ)
    (hauto : s.autoReconnect = true) (h1 : s.maxReconnectAttempts > 0)
    (h2 : s.reconnectAttempts ≥ s.maxReconnectAttempts) :
    scheduleReconnect s rand = (s, [WSEvent.errorEv "MAX_RECONNECT"]) := by
  unfold scheduleReconnect
  rw [if_neg (by simp [hauto]), if_pos ⟨h1, h2⟩]

/-- A close event on a connected auto-reconnecting session runs
`scheduleReconnect` on the heartbeat-stopped disconnected state, after
the `disconnected` event. -/
theorem handleClose_connected_auto (s : WSState) (code : ℤ) (reason : String) (rand : ℚ)
    (hconn : s.state = WSConnState.connected) (hauto : s.autoReconnect = true) :
    handleClose s code reason rand =
      ((scheduleReconnect { s with heartbeatTimer := false, state := WSConnState.disconnected } rand).1,
        WSEvent.disconnectedEv code reason ::
          (scheduleReconnect { s with heartbeatTimer := false, state := WSConnState.disconnected } rand).2) := by
  unfold handleClose
  rw [if_pos ⟨hconn, hauto⟩]

/-- C5 (amended): after a transport close while connected with
auto-reconnect on, the session emits `disconnected` and then, when the
attempt budget allows, transitions to `reconnecting` and emits one
`reconnecting` event whose attempt number is the incremented counter
(first occurrence carries `attempt = 1`); the scheduled delay is
computed *before* the counter increment, i.e. it equals
`min(reconnectDelayMs · 2 ^ (attempt − 1), maxReconnectDelayMs)`
jittered by the factor `0.5 + rand ∈ [0.5, 1.5)`; when
`maxReconnectAttempts > 0` and the counter has reached it, no attempt is
scheduled and a `MAX_RECONNECT` error event is emitted instead. -/
theorem close_reconnect_spec (s : WSState) (code : ℤ) (reason : String) (rand : ℚ)
    (hconn : s.state = WSConnState.connected) (hauto : s.autoReconnect = true) :
    ((s.maxReconnectAttempts = 0 ∨ s.reconnectAttempts < s.maxReconnectAttempts) →
      (handleClose s code reason rand).2 =
        [WSEvent.disconnectedEv code reason,
          WSEvent.reconnectingEv (s.reconnectAttempts + 1)
            (jsRound (min (s.reconnectDelayMs * 2 ^ s.reconnectAttempts) s.maxReconnectDelayMs * (1/2 + rand)))]
        ∧ (handleClose s code reason rand).1.state = WSConnState.reconnecting
        ∧ (handleClose s code reason rand).1.reconnectAttempts = s.reconnectAttempts + 1
        ∧ (handleClose s code reason rand).1.reconnectTimer = true)
    ∧ (s.maxReconnectAttempts > 0 → s.reconnectAttempts ≥ s.maxReconnectAttempts →
      (handleClose s code reason rand).2 =
        [WSEvent.disconnectedEv code reason, WSEvent.errorEv "MAX_RECONNECT"]
        ∧ (handleClose s code reason rand).1.state = WSConnState.disconnected
        ∧ (handleClose s code reason rand).1.reconnectTimer = s.reconnectTimer)
    ∧ (0 ≤ rand → rand < 1 → 1/2 ≤ 1/2 + rand ∧ 1/2 + rand < 3/2) := by
  refine ⟨?_, ?_, fun h0 h1 => ⟨by linarith, by linarith⟩⟩
  · intro hb
    rw [handleClose_connected_auto s code reason rand hconn hauto,
      scheduleReconnect_budget_ok { s with heartbeatTimer := false, state := WSConnState.disconnected } rand hauto hb]
    exact ⟨rfl, rfl, rfl, rfl⟩
  · intro h1 h2
    rw [handleClose_connected_auto s code reason rand hconn hauto,
      scheduleReconnect_budget_exhausted { s with heartbeatTimer := false, state := WSConnState.disconnected } rand hauto h1 h2]
    exact ⟨rfl, rfl, rfl⟩

/-- Witness for `close_reconnect_spec`: a first close on a fresh
connected session emits `reconnecting` with `attempt = 1` and delay
`min(1000 · 2^0, 30000) · 1 = 1000`; a session whose counter has reached
the budget of 10 gets the `MAX_RECONNECT` error instead. -/
theorem close_reconnect_spec_witness :
    (handleClose { initWSState with state := WSConnState.connected, wsAttached := true } 1006 "gone" (1/2)).2 =
      [WSEvent.disconnectedEv 1006 "gone",
        WSEvent.reconnectingEv (0 + 1) (jsRound (min ((1000:ℚ) * 2 ^ (0:ℕ)) 30000 * (1/2 + 1/2)))]
    ∧ (handleClose { initWSState with state := WSConnState.connected, reconnectAttempts := 10 } 1006 "gone" (1/2)).2 =
      [WSEvent.disconnectedEv 1006 "gone", WSEvent.errorEv "MAX_RECONNECT"] := by
  constructor
  · exact ((close_reconnect_spec
      { initWSState with state := WSConnState.connected, wsAttached := true }
      1006 "gone" (1/2) rfl rfl).1 (by right; decide)).1
  · exact ((close_reconnect_spec
      { initWSState with state := WSConnState.connected, reconnectAttempts := 10 }
      1006 "gone" (1/2) rfl rfl).2.1 (by decide) (by decide)).1

/-- C5 (counterexample): on the first close of a fresh connected session
(`reconnectDelayMs = 1000`, counter 0, jitter factor 1) the emitted
delay is 1000 ms — computed from the pre-increment counter — while the
claim's reading (increment before computing the delay) would give
`min(1000 · 2^1, 30000) · 1 = 2000` ms for the same `attempt = 1`
event. -/
theorem reconnect_delay_counterexample :
    (handleClose { initWSState with state := WSConnState.connected, wsAttached := true } 1006 "gone" (1/2)).2 =
      [WSEvent.disconnectedEv 1006 "gone", WSEvent.reconnectingEv 1 1000]
    ∧ jsRound (min ((1000:ℚ) * 2 ^ (1:ℕ)) 30000 * (1/2 + 1/2)) = 2000
    ∧ (1000 : ℤ) ≠ 2000 := by
  refine ⟨?_, by norm_num [jsRound], by decide⟩
  rw [handleClose_connected_auto
      { initWSState with state := WSConnState.connected, wsAttached := true }
      1006 "gone" (1/2) rfl rfl,
    scheduleReconnect_budget_ok _ (1/2) rfl (by right; decide)]
  norm_num [jsRound, initWSState]

/-- With auto-reconnect disabled, `scheduleReconnect` is a no-op. -/
theorem scheduleReconnect_off (s : WSState) (rand : ℚ) (h : s.autoReconnect = false) :
    scheduleReconnect s rand = (s, []) := by
  unfold scheduleReconnect
  rw [if_pos (by simp [h])]

/-- With auto-reconnect disabled, `doConnect` keeps it disabled and
never emits a `reconnecting` event. -/
theorem doConnect_off (s : WSState) (ctorOk : Bool) (rand : ℚ)
    (h : s.autoReconnect = false) :
    (doConnect s ctorOk rand).1.autoReconnect = false
      ∧ (doConnect s ctorOk rand).2.all (fun e => !isReconnectingEv e) = true := by
  unfold doConnect
  cases ctorOk with
  | true => simpa using h
  | false => simp [scheduleReconnect_off s rand h, h, isReconnectingEv]

/-- `handleMessage` never touches `autoReconnect` and never emits a
`reconnecting` event. -/
theorem handleMessage_off (s : WSState) (m : WSServerMsg) :
    (handleMessage s m).1.autoReconnect = s.autoReconnect
      ∧ (handleMessage s m).2.1.all (fun e => !isReconnectingEv e) = true := by
  cases m <;> simp [handleMessage, isReconnectingEv, (startHeartbeat_fields _).2.2.2.1]

/-- With auto-reconnect disabled, any single step keeps it disabled and
emits no `reconnecting` event. -/
theorem wsStep_off (s : WSState) (a : WSAction) (h : s.autoReconnect = false) :
    (wsStep s a).1.autoReconnect = false
      ∧ (wsStep s a).2.1.all (fun e => !isReconnectingEv e) = true := by
  cases a with
  | connectA ctorOk rand =>
    simp only [wsStep, wsConnect]
    split
    · simpa using h
    · exact doConnect_off { s with state := WSConnState.connecting } ctorOk rand h
  | disconnectA => simp [wsStep, wsDisconnect, wsCleanup]
  | subscribeA chs =>
    simp only [wsStep, wsSubscribe]
    split <;> simpa using h
  | unsubscribeA chs =>
    simp only [wsStep, wsUnsubscribe]
    split <;> simpa using h
  | pingA => simpa [wsStep] using h
  | messageA m =>
    simp only [wsStep]
    split
    · have hm := handleMessage_off s m
      exact ⟨hm.1.trans h, hm.2⟩
    · simpa using h
  | closeA code reason rand =>
    simp only [wsStep]
    split
    · simp only [handleClose]
      rw [if_neg (by simp [h])]
      simp [h, isReconnectingEv]
    · simpa using h
  | reconnectTimerFireA ctorOk rand =>
    simp only [wsStep]
    split
    · exact doConnect_off { s with reconnectTimer := false } ctorOk rand h
    · simpa using h
  | heartbeatFireA =>
    simp only [wsStep]
    split <;> simpa using h

/-- With auto-reconnect disabled, no run of steps ever emits a
`reconnecting` event. -/
theorem wsRun_off (acts : List WSAction) :
    ∀ s : WSState, s.autoReconnect = false →
      (wsRun s acts).2.all (fun e => !isReconnectingEv e) = true := by
  induction acts with
  | nil => intro s _; simp [wsRun]
  | cons a rest ih =>
    intro s h
    have hstep := wsStep_off s a h
    have hrest := ih (wsStep s a).1 hstep.1
    simp [wsRun, List.all_append, hstep.2, hrest]

/-- C6: `disconnect()` forces the `disconnected` state from any session
state, permanently disables auto-reconnect, cancels the pending
reconnect and heartbeat timers, detaches the transport handle, is
idempotent under repeated calls, and — whatever steps (caller calls,
transport callbacks, timer firings) happen afterwards — no
`reconnecting` event is ever emitted again. -/
theorem wsDisconnect_spec (s : WSState) (acts : List WSAction) :
    (wsDisconnect s).state = WSConnState.disconnected
    ∧ (wsDisconnect s).autoReconnect = false
    ∧ (wsDisconnect s).reconnectTimer = false
    ∧ (wsDisconnect s).heartbeatTimer = false
    ∧ (wsDisconnect s).wsAttached = false
    ∧ wsDisconnect (wsDisconnect s) = wsDisconnect s
    ∧ (wsRun (wsDisconnect s) acts).2.all (fun e => !isReconnectingEv e) = true := by
  refine ⟨rfl, rfl, rfl, rfl, rfl, rfl, wsRun_off acts (wsDisconnect s) rfl⟩
